import Mathlib

/-!
Verification of the Mergington High School activities API (`src/app.py`).

The Python program keeps two process-wide dictionaries, `sessions`
(session token -> username) and `activities` (activity name -> record),
and exposes FastAPI handlers for login, logout, status, listing,
signup and unregister.  We embed the dictionaries as association
lists with unique keys (Python dicts preserve insertion order;
lookup finds the unique binding, update replaces it in place) and the
handlers as pure functions from state to state x response.
-/

namespace Mergington

/-- An activity record, mirroring the dict values of `activities` in
`app.py` (description, schedule, max_participants, participants). -/
structure Activity where
  description : String
  schedule : String
  max_participants : Nat
  participants : List String
  deriving Repr, DecidableEq

/-- Dictionary lookup on an association list (Python `d[k]` / `k in d`). -/
def lookupD {α : Type} (d : List (String × α)) (k : String) : Option α :=
  match d with
  | [] => none
  | (k0, v0) :: rest => if k0 = k then some v0 else lookupD rest k

/-- Replace the value bound to `k` in place, keeping insertion order
(Python mutating `d[k]` for an existing key).  No-op if `k` is absent. -/
def updateD {α : Type} (d : List (String × α)) (k : String) (v : α) :
    List (String × α) :=
  match d with
  | [] => []
  | (k0, v0) :: rest =>
    if k0 = k then (k0, v) :: rest else (k0, v0) :: updateD rest k v

/-- Insert or replace a binding (Python `d[k] = v`): replaces in place if
the key exists, otherwise appends at the end, as dict insertion does. -/
def insertD {α : Type} (d : List (String × α)) (k : String) (v : α) :
    List (String × α) :=
  match d with
  | [] => [(k, v)]
  | (k0, v0) :: rest =>
    if k0 = k then (k0, v) :: rest else (k0, v0) :: insertD rest k v

/-- Delete the binding of `k` (Python `del d[k]`, only called when present). -/
def eraseD {α : Type} (d : List (String × α)) (k : String) :
    List (String × α) :=
  match d with
  | [] => []
  | (k0, v0) :: rest => if k0 = k then rest else (k0, v0) :: eraseD rest k

/-- Remove the first occurrence of `x` (Python `list.remove(x)`, only
called when `x` is present so the ValueError branch is unreachable). -/
def removeFirst (l : List String) (x : String) : List String :=
  match l with
  | [] => []
  | y :: rest => if y = x then rest else y :: removeFirst rest x

/-- A teacher credential record from `teachers.json`
(`{username, password_hash}`). -/
structure Teacher where
  username : String
  password_hash : String
  deriving Repr, DecidableEq

/-- The mutable process state: the session registry and the activity
registry (`sessions` and `activities` globals in `app.py`). -/
structure AppState where
  sessions : List (String × String)
  activities : List (String × Activity)
  deriving Repr, DecidableEq

/-- The environment a request runs in: the credential store loaded at
startup, the bcrypt password check (`bcrypt.checkpw`, external library,
modelled abstractly), and the fresh token `secrets.token_urlsafe(32)`
would produce for this request. -/
structure Env where
  teachers : List Teacher
  checkpw : String → String → Bool
  freshToken : String

/-- HTTP responses the handlers produce: success payloads of the various
endpoints, or an `HTTPException(status_code, detail)`. -/
inductive Response where
  | ok (message : String) : Response
  | okLogin (message : String) (username : String) : Response
  | okStatus (authenticated : Bool) (username : Option String) : Response
  | okActivities (acts : List (String × Activity)) : Response
  | err (status : Nat) (detail : String) : Response
  deriving Repr, DecidableEq

/-- `get_current_user` in `app.py`: `if session_id and session_id in
sessions: return sessions[session_id]` — note Python truthiness: an
empty-string cookie is falsy and short-circuits to `None`. -/
def get_current_user (sessions : List (String × String))
    (session_id : Option String) : Option String :=
  match session_id with
  | none => none
  | some sid => if sid = "" then none else lookupD sessions sid

/-- `require_auth` in `app.py`: resolve the cookie, and raise 401 when
the result is falsy (`None`, or the empty-string username).  `none`
here models the raised `HTTPException(401)`. -/
def require_auth (sessions : List (String × String))
    (session_id : Option String) : Option String :=
  match get_current_user sessions session_id with
  | none => none
  | some u => if u = "" then none else some u

/-- `login` in `app.py`: look the teacher up by username, verify the
password with `bcrypt.checkpw`, and on success store
`sessions[token] = username` and answer 200; otherwise answer 401
"Invalid credentials" in both failure cases. -/
def login (env : Env) (st : AppState) (username password : String) :
    AppState × Response :=
  match env.teachers.find? (fun t => t.username == username) with
  | none => (st, .err 401 "Invalid credentials")
  | some teacher =>
    if env.checkpw password teacher.password_hash then
      ({ st with sessions := insertD st.sessions env.freshToken username },
       .okLogin "Logged in successfully" username)
    else
      (st, .err 401 "Invalid credentials")

/-- `logout` in `app.py`: `if session_id and session_id in sessions:
del sessions[session_id]`, then always answer 200. -/
def logout (st : AppState) (session_id : Option String) :
    AppState × Response :=
  match session_id with
  | none => (st, .ok "Logged out successfully")
  | some sid =>
    if sid = "" then (st, .ok "Logged out successfully")
    else if (lookupD st.sessions sid).isSome then
      ({ st with sessions := eraseD st.sessions sid },
       .ok "Logged out successfully")
    else (st, .ok "Logged out successfully")

/-- `auth_status` in `app.py`: resolve the cookie and report
`{authenticated, username?}`; a falsy user reports unauthenticated. -/
def auth_status (st : AppState) (session_id : Option String) :
    AppState × Response :=
  match get_current_user st.sessions session_id with
  | none => (st, .okStatus false none)
  | some u =>
    if u = "" then (st, .okStatus false none)
    else (st, .okStatus true (some u))

/-- `get_activities` in `app.py`: `return activities` — no auth
dependency, the full mapping is returned unconditionally. -/
def get_activities (st : AppState) : AppState × Response :=
  (st, .okActivities st.activities)

/-- `signup_for_activity` in `app.py`: requires auth
(`Depends(require_auth)`), 404 for an unknown activity, 400 when the
email is already enrolled, else appends the email to `participants`.
No check against `max_participants` appears anywhere. -/
def signup_for_activity (st : AppState) (session_id : Option String)
    (activity_name email : String) : AppState × Response :=
  match require_auth st.sessions session_id with
  | none => (st, .err 401 "Authentication required")
  | some _ =>
    match lookupD st.activities activity_name with
    | none => (st, .err 404 "Activity not found")
    | some activity =>
      if email ∈ activity.participants then
        (st, .err 400 "Student is already signed up")
      else
        let updated := { activity with participants := activity.participants ++ [email] }
        ({ st with activities := updateD st.activities activity_name updated },
         .ok ("Signed up " ++ email ++ " for " ++ activity_name))

/-- `unregister_from_activity` in `app.py`: requires auth, 404 for an
unknown activity, 400 when the email is not enrolled, else removes the
email from `participants` (`list.remove`, first occurrence). -/
def unregister_from_activity (st : AppState) (session_id : Option String)
    (activity_name email : String) : AppState × Response :=
  match require_auth st.sessions session_id with
  | none => (st, .err 401 "Authentication required")
  | some _ =>
    match lookupD st.activities activity_name with
    | none => (st, .err 404 "Activity not found")
    | some activity =>
      if email ∈ activity.participants then
        let updated := { activity with participants := removeFirst activity.participants email }
        ({ st with activities := updateD st.activities activity_name updated },
         .ok ("Unregistered " ++ email ++ " from " ++ activity_name))
      else
        (st, .err 400 "Student is not signed up for this activity")

/-- The requests a client can make against the API surface of `app.py`
(path and query parameters inlined; the session cookie is passed
separately to `handle`). -/
inductive Request where
  | login (username password : String) : Request
  | logout : Request
  | authStatus : Request
  | listActivities : Request
  | signup (activity_name email : String) : Request
  | unregister (activity_name email : String) : Request
  deriving Repr, DecidableEq

/-- The request dispatcher: routes each request to its handler exactly
as the FastAPI route table in `app.py` does. -/
def handle (env : Env) (st : AppState) (cookie : Option String) :
    Request → AppState × Response
  | .login u p => login env st u p
  | .logout => logout st cookie
  | .authStatus => auth_status st cookie
  | .listActivities => get_activities st
  | .signup n e => signup_for_activity st cookie n e
  | .unregister n e => unregister_from_activity st cookie n e

/-- Run a sequence of requests (each with its own environment and
cookie), threading the state through. -/
def runOps (ops : List (Env × Option String × Request)) (st : AppState) :
    AppState :=
  match ops with
  | [] => st
  | (env, cookie, req) :: rest => runOps rest (handle env st cookie req).1

/-- The seeded activity registry of `app.py` (lines 35-90). -/
def initialActivities : List (String × Activity) :=
  [("Chess Club",
    { description := "Learn strategies and compete in chess tournaments",
      schedule := "Fridays, 3:30 PM - 5:00 PM",
      max_participants := 12,
      participants := ["michael@mergington.edu", "daniel@mergington.edu"] }),
   ("Programming Class",
    { description := "Learn programming fundamentals and build software projects",
      schedule := "Tuesdays and Thursdays, 3:30 PM - 4:30 PM",
      max_participants := 20,
      participants := ["emma@mergington.edu", "sophia@mergington.edu"] }),
   ("Gym Class",
    { description := "Physical education and sports activities",
      schedule := "Mondays, Wednesdays, Fridays, 2:00 PM - 3:00 PM",
      max_participants := 30,
      participants := ["john@mergington.edu", "olivia@mergington.edu"] }),
   ("Soccer Team",
    { description := "Join the school soccer team and compete in matches",
      schedule := "Tuesdays and Thursdays, 4:00 PM - 5:30 PM",
      max_participants := 22,
      participants := ["liam@mergington.edu", "noah@mergington.edu"] }),
   ("Basketball Team",
    { description := "Practice and play basketball with the school team",
      schedule := "Wednesdays and Fridays, 3:30 PM - 5:00 PM",
      max_participants := 15,
      participants := ["ava@mergington.edu", "mia@mergington.edu"] }),
   ("Art Club",
    { description := "Explore your creativity through painting and drawing",
      schedule := "Thursdays, 3:30 PM - 5:00 PM",
      max_participants := 15,
      participants := ["amelia@mergington.edu", "harper@mergington.edu"] }),
   ("Drama Club",
    { description := "Act, direct, and produce plays and performances",
      schedule := "Mondays and Wednesdays, 4:00 PM - 5:30 PM",
      max_participants := 20,
      participants := ["ella@mergington.edu", "scarlett@mergington.edu"] }),
   ("Math Club",
    { description := "Solve challenging problems and participate in math competitions",
      schedule := "Tuesdays, 3:30 PM - 4:30 PM",
      max_participants := 10,
      participants := ["james@mergington.edu", "benjamin@mergington.edu"] }),
   ("Debate Team",
    { description := "Develop public speaking and argumentation skills",
      schedule := "Fridays, 4:00 PM - 5:30 PM",
      max_participants := 12,
      participants := ["charlotte@mergington.edu", "henry@mergington.edu"] })]

/-- The process state right after startup: empty session registry
(`sessions = {}`) and the seeded activity registry. -/
def initialState : AppState :=
  { sessions := [], activities := initialActivities }

/-- The per-activity no-duplicates invariant: no activity's participant
list contains the same email twice. -/
def RosterNodup (st : AppState) : Prop :=
  ∀ p ∈ st.activities, (Prod.snd p).participants.Nodup

/-- The frame property of a roster mutation targeting `activity_name`:
the session registry is unchanged, the set and order of activity keys is
unchanged, every other activity's record is unchanged, and the targeted
activity keeps its description, schedule and max_participants. -/
def FramePreserved (st st' : AppState) (activity_name : String) : Prop :=
  st'.sessions = st.sessions ∧
  st'.activities.map Prod.fst = st.activities.map Prod.fst ∧
  (∀ k, k ≠ activity_name → lookupD st'.activities k = lookupD st.activities k) ∧
  (∀ a a', lookupD st.activities activity_name = some a →
    lookupD st'.activities activity_name = some a' →
    a'.description = a.description ∧ a'.schedule = a.schedule ∧
    a'.max_participants = a.max_participants)

/-! ### Concrete fixtures used to instantiate theorems -/

/-- The seeded Chess Club record. -/
def chessClub : Activity :=
  { description := "Learn strategies and compete in chess tournaments",
    schedule := "Fridays, 3:30 PM - 5:00 PM",
    max_participants := 12,
    participants := ["michael@mergington.edu", "daniel@mergington.edu"] }

/-- A state with one logged-in session and the seeded registry. -/
def wState : AppState :=
  { sessions := [("tok", "mrodriguez")], activities := initialActivities }

/-- An activity whose roster is already at `max_participants`. -/
def fullClub : Activity :=
  { description := "d", schedule := "s", max_participants := 2,
    participants := ["a@mergington.edu", "b@mergington.edu"] }

/-- A state with one logged-in session and a single full activity. -/
def wStateFull : AppState :=
  { sessions := [("tok", "mrodriguez")], activities := [("Tiny Club", fullClub)] }

/-- A single-teacher credential store paired with a concrete password
check, for instantiating the login theorems. -/
def wEnv : Env :=
  { teachers := [{ username := "mrodriguez", password_hash := "h1" }],
    checkpw := fun p h => p == "goodpw" && h == "h1",
    freshToken := "fresh" }

/-! ### Dictionary and list lemmas -/

theorem lookupD_updateD_self {α : Type} (d : List (String × α)) (k : String)
    (v a : α) (h : lookupD d k = some a) : lookupD (updateD d k v) k = some v := by
  induction d with
  | nil => simp [lookupD] at h
  | cons hd tl ih =>
    obtain ⟨k0, v0⟩ := hd
    by_cases hk : k0 = k
    · simp [lookupD, updateD, hk]
    · simp only [lookupD, updateD, if_neg hk] at h ⊢
      exact ih h

theorem lookupD_updateD_ne {α : Type} (d : List (String × α)) (k k' : String)
    (v : α) (h : k' ≠ k) : lookupD (updateD d k v) k' = lookupD d k' := by
  induction d with
  | nil => simp [updateD]
  | cons hd tl ih =>
    obtain ⟨k0, v0⟩ := hd
    by_cases hk : k0 = k
    · subst hk
      simp [lookupD, updateD, Ne.symm h]
    · simp only [lookupD, updateD, if_neg hk]
      by_cases hk' : k0 = k' <;> simp [hk', ih]

theorem updateD_updateD {α : Type} (d : List (String × α)) (k : String)
    (v v' : α) : updateD (updateD d k v) k v' = updateD d k v' := by
  induction d with
  | nil => simp [updateD]
  | cons hd tl ih =>
    obtain ⟨k0, v0⟩ := hd
    by_cases hk : k0 = k <;> simp [updateD, hk, ih]

theorem updateD_self {α : Type} (d : List (String × α)) (k : String)
    (v : α) (h : lookupD d k = some v) : updateD d k v = d := by
  induction d with
  | nil => simp [updateD]
  | cons hd tl ih =>
    obtain ⟨k0, v0⟩ := hd
    by_cases hk : k0 = k
    · simp only [lookupD, if_pos hk, Option.some.injEq] at h
      simp [updateD, hk, h]
    · simp only [lookupD, if_neg hk] at h
      simp [updateD, hk, ih h]

theorem map_fst_updateD {α : Type} (d : List (String × α)) (k : String)
    (v : α) : (updateD d k v).map Prod.fst = d.map Prod.fst := by
  induction d with
  | nil => simp [updateD]
  | cons hd tl ih =>
    obtain ⟨k0, v0⟩ := hd
    by_cases hk : k0 = k <;> simp [updateD, hk, ih]

theorem mem_of_lookupD {α : Type} {d : List (String × α)} {k : String}
    {v : α} (h : lookupD d k = some v) : (k, v) ∈ d := by
  induction d with
  | nil => simp [lookupD] at h
  | cons hd tl ih =>
    obtain ⟨k0, v0⟩ := hd
    by_cases hk : k0 = k
    · simp only [lookupD, if_pos hk, Option.some.injEq] at h
      subst hk; subst h; exact List.mem_cons_self _ _
    · simp only [lookupD, if_neg hk] at h
      exact List.mem_cons_of_mem _ (ih h)

theorem forall_mem_updateD {α : Type} {P : α → Prop} {d : List (String × α)}
    {k : String} {v : α} (hd : ∀ p ∈ d, P p.2) (hv : P v) :
    ∀ p ∈ updateD d k v, P p.2 := by
  induction d with
  | nil => simp [updateD]
  | cons hd0 tl ih =>
    obtain ⟨k0, v0⟩ := hd0
    by_cases hk : k0 = k
    · simp only [updateD, if_pos hk]
      intro p hp
      rcases List.mem_cons.mp hp with h | h
      · subst h; exact hv
      · exact hd p (List.mem_cons_of_mem _ h)
    · simp only [updateD, if_neg hk]
      intro p hp
      rcases List.mem_cons.mp hp with h | h
      · subst h; exact hd _ (List.mem_cons_self _ _)
      · exact ih (fun q hq => hd q (List.mem_cons_of_mem _ hq)) p h

theorem removeFirst_append_of_not_mem (l : List String) (x : String)
    (h : x ∉ l) : removeFirst (l ++ [x]) x = l := by
  induction l with
  | nil => simp [removeFirst]
  | cons y rest ih =>
    simp only [List.mem_cons, not_or] at h
    simp only [List.cons_append, removeFirst, if_neg (Ne.symm h.1)]
    show y :: removeFirst (rest ++ [x]) x = y :: rest
    rw [ih h.2]

theorem removeFirst_sublist (l : List String) (x : String) :
    List.Sublist (removeFirst l x) l := by
  induction l with
  | nil => simp [removeFirst]
  | cons y rest ih =>
    by_cases hy : y = x
    · simp [removeFirst, hy, List.sublist_cons_self x rest]
    · simpa [removeFirst, hy] using List.Sublist.cons₂ y ih

theorem lookupD_eq_none_of_not_mem {α : Type} (d : List (String × α))
    (k : String) (h : k ∉ d.map Prod.fst) : lookupD d k = none := by
  induction d with
  | nil => simp [lookupD]
  | cons hd tl ih =>
    obtain ⟨k0, v0⟩ := hd
    simp only [List.map_cons, List.mem_cons, not_or] at h
    simp only [lookupD, if_neg (Ne.symm h.1)]
    exact ih h.2

theorem lookupD_eraseD_self {α : Type} (d : List (String × α)) (k : String)
    (hnd : (d.map Prod.fst).Nodup) : lookupD (eraseD d k) k = none := by
  induction d with
  | nil => simp [eraseD, lookupD]
  | cons hd tl ih =>
    obtain ⟨k0, v0⟩ := hd
    simp only [List.map_cons, List.nodup_cons] at hnd
    by_cases hk : k0 = k
    · subst hk
      simp only [eraseD, if_pos rfl]
      exact lookupD_eq_none_of_not_mem tl k0 hnd.1
    · simp only [eraseD, if_neg hk, lookupD, if_neg hk]
      exact ih hnd.2

/-! ### Claim theorems -/

/-- C1: with a valid session, signup answers 404 when the activity name
is not a key of the registry; 400 "already signed up" when the email is
already enrolled; otherwise it succeeds and appends the email to that
activity's participants — with no check against `max_participants`, so
in particular it succeeds even when the roster is already at or above
capacity. -/
theorem signup_contract (st : AppState) (cookie : Option String)
    (activity_name email u : String)
    (hauth : require_auth st.sessions cookie = some u) :
    (lookupD st.activities activity_name = none →
      signup_for_activity st cookie activity_name email =
        (st, Response.err 404 "Activity not found")) ∧
    (∀ a, lookupD st.activities activity_name = some a →
      email ∈ a.participants →
      signup_for_activity st cookie activity_name email =
        (st, Response.err 400 "Student is already signed up")) ∧
    (∀ a, lookupD st.activities activity_name = some a →
      email ∉ a.participants →
      (signup_for_activity st cookie activity_name email).1.activities =
        updateD st.activities activity_name { a with participants := a.participants ++ [email] } ∧
      (signup_for_activity st cookie activity_name email).1.sessions = st.sessions ∧
      (signup_for_activity st cookie activity_name email).2 =
        Response.ok ("Signed up " ++ email ++ " for " ++ activity_name)) ∧
    (∀ a, lookupD st.activities activity_name = some a →
      email ∉ a.participants → a.max_participants ≤ a.participants.length →
      (signup_for_activity st cookie activity_name email).2 =
        Response.ok ("Signed up " ++ email ++ " for " ++ activity_name)) := by
  refine ⟨?_, ?_, ?_, ?_⟩
  · intro h
    simp [signup_for_activity, hauth, h]
  · intro a ha hmem
    simp [signup_for_activity, hauth, ha, hmem]
  · intro a ha hmem
    refine ⟨?_, ?_, ?_⟩ <;> simp [signup_for_activity, hauth, ha, hmem]
  · intro a ha hmem _
    simp [signup_for_activity, hauth, ha, hmem]

/-- Witness for C1 at a concrete input: a full activity still accepts a
new signup. -/
theorem signup_contract_witness :
    (signup_for_activity wStateFull (some "tok") "Tiny Club" "c@mergington.edu").2 =
      Response.ok ("Signed up " ++ "c@mergington.edu" ++ " for " ++ "Tiny Club") := by
  have h := (signup_contract wStateFull (some "tok") "Tiny Club" "c@mergington.edu"
    "mrodriguez" (by decide)).2.2.2
  exact h fullClub (by decide) (by decide) (by decide)

/-- C2: with a valid session, unregister answers 404 when the activity
name is not a key of the registry; 400 "not signed up" when the email is
not enrolled; otherwise it succeeds and removes the email from that
activity's participants. -/
theorem unregister_contract (st : AppState) (cookie : Option String)
    (activity_name email u : String)
    (hauth : require_auth st.sessions cookie = some u) :
    (lookupD st.activities activity_name = none →
      unregister_from_activity st cookie activity_name email =
        (st, Response.err 404 "Activity not found")) ∧
    (∀ a, lookupD st.activities activity_name = some a →
      email ∉ a.participants →
      unregister_from_activity st cookie activity_name email =
        (st, Response.err 400 "Student is not signed up for this activity")) ∧
    (∀ a, lookupD st.activities activity_name = some a →
      email ∈ a.participants →
      (unregister_from_activity st cookie activity_name email).1.activities =
        updateD st.activities activity_name { a with participants := removeFirst a.participants email } ∧
      (unregister_from_activity st cookie activity_name email).1.sessions = st.sessions ∧
      (unregister_from_activity st cookie activity_name email).2 =
        Response.ok ("Unregistered " ++ email ++ " from " ++ activity_name)) := by
  refine ⟨?_, ?_, ?_⟩
  · intro h
    simp [unregister_from_activity, hauth, h]
  · intro a ha hmem
    simp [unregister_from_activity, hauth, ha, hmem]
  · intro a ha hmem
    refine ⟨?_, ?_, ?_⟩ <;> simp [unregister_from_activity, hauth, ha, hmem]

/-- Witness for C2 at a concrete input: removing a seeded participant
from Chess Club succeeds. -/
theorem unregister_contract_witness :
    (unregister_from_activity wState (some "tok") "Chess Club" "michael@mergington.edu").2 =
      Response.ok ("Unregistered " ++ "michael@mergington.edu" ++ " from " ++ "Chess Club") := by
  have h := (unregister_contract wState (some "tok") "Chess Club" "michael@mergington.edu"
    "mrodriguez" (by decide)).2.2
  exact (h { description := "Learn strategies and compete in chess tournaments",
             schedule := "Fridays, 3:30 PM - 5:00 PM", max_participants := 12,
             participants := ["michael@mergington.edu", "daniel@mergington.edu"] }
    (by decide) (by decide)).2.2

/-- Any signup call that answers an error leaves the state untouched. -/
theorem signup_err_state (st : AppState) (cookie : Option String) (n e : String)
    (code : Nat) (d : String)
    (h : (signup_for_activity st cookie n e).2 = Response.err code d) :
    (signup_for_activity st cookie n e).1 = st := by
  unfold signup_for_activity at h ⊢
  cases hra : require_auth st.sessions cookie with
  | none => simp [hra]
  | some u =>
    simp only [hra] at h ⊢
    cases hl : lookupD st.activities n with
    | none => simp [hl]
    | some a =>
      simp only [hl] at h ⊢
      by_cases hm : e ∈ a.participants
      · simp [hm]
      · simp [hm] at h

/-- Any unregister call that answers an error leaves the state untouched. -/
theorem unregister_err_state (st : AppState) (cookie : Option String) (n e : String)
    (code : Nat) (d : String)
    (h : (unregister_from_activity st cookie n e).2 = Response.err code d) :
    (unregister_from_activity st cookie n e).1 = st := by
  unfold unregister_from_activity at h ⊢
  cases hra : require_auth st.sessions cookie with
  | none => simp [hra]
  | some u =>
    simp only [hra] at h ⊢
    cases hl : lookupD st.activities n with
    | none => simp [hl]
    | some a =>
      simp only [hl] at h ⊢
      by_cases hm : e ∈ a.participants
      · simp [hm] at h
      · simp [hm]

/-- C3: a signup or unregister request whose cookie is absent or whose
token does not resolve in the session registry is rejected with 401 and
leaves the whole state — activity registry and session registry —
unchanged. -/
theorem no_session_no_mutation (st : AppState) (cookie : Option String)
    (h : cookie = none ∨ ∀ s, cookie = some s → lookupD st.sessions s = none) :
    ∀ activity_name email : String,
      signup_for_activity st cookie activity_name email =
        (st, Response.err 401 "Authentication required") ∧
      unregister_from_activity st cookie activity_name email =
        (st, Response.err 401 "Authentication required") := by
  have hra : require_auth st.sessions cookie = none := by
    rcases h with h | h
    · simp [require_auth, get_current_user, h]
    · cases cookie with
      | none => simp [require_auth, get_current_user]
      | some s =>
        by_cases hs : s = ""
        · simp [require_auth, get_current_user, hs]
        · simp [require_auth, get_current_user, hs, h s rfl]
  intro n e
  constructor <;> simp [signup_for_activity, unregister_from_activity, hra]

/-- Witness for C3: with no cookie at all, signup on the seeded state is
rejected and the state is returned unchanged. -/
theorem no_session_no_mutation_witness :
    signup_for_activity initialState none "Chess Club" "x@mergington.edu" =
      (initialState, Response.err 401 "Authentication required") :=
  (no_session_no_mutation initialState none (Or.inl rfl)
    "Chess Club" "x@mergington.edu").1

/-- C4: whenever signup or unregister answers an error, the state is
exactly as before the call, and re-issuing the identical request yields
the identical (state, response) pair — the same error, with the state
again unchanged. -/
theorem mutation_idempotent_on_failure (st : AppState) (cookie : Option String)
    (activity_name email : String) :
    (∀ code d, (signup_for_activity st cookie activity_name email).2 = Response.err code d →
      (signup_for_activity st cookie activity_name email).1 = st ∧
      signup_for_activity (signup_for_activity st cookie activity_name email).1
          cookie activity_name email =
        signup_for_activity st cookie activity_name email) ∧
    (∀ code d, (unregister_from_activity st cookie activity_name email).2 = Response.err code d →
      (unregister_from_activity st cookie activity_name email).1 = st ∧
      unregister_from_activity (unregister_from_activity st cookie activity_name email).1
          cookie activity_name email =
        unregister_from_activity st cookie activity_name email) := by
  constructor
  · intro code d h
    have h1 := signup_err_state st cookie activity_name email code d h
    exact ⟨h1, by rw [h1]⟩
  · intro code d h
    have h1 := unregister_err_state st cookie activity_name email code d h
    exact ⟨h1, by rw [h1]⟩

/-- Witness for C4: a signup to a nonexistent activity fails with 404
and leaves the seeded authenticated state unchanged. -/
theorem mutation_idempotent_on_failure_witness :
    (signup_for_activity wState (some "tok") "Juggling Club" "x@mergington.edu").1 = wState :=
  ((mutation_idempotent_on_failure wState (some "tok") "Juggling Club" "x@mergington.edu").1
    404 "Activity not found" (by decide)).1

/-- C5 counterexample: listing the activities with no session cookie at
all is not rejected — it succeeds, returning the full seeded mapping
with the state unchanged, and in particular is not a 401 error, so the
listing endpoint does not require a valid session. -/
theorem list_activities_no_auth_counterexample :
    handle wEnv initialState none Request.listActivities =
      (initialState, Response.okActivities initialActivities) ∧
    (handle wEnv initialState none Request.listActivities).2 ≠
      Response.err 401 "Authentication required" := by
  constructor
  · rfl
  · intro h
    simp [handle, get_activities] at h

/-- C5 amended: the mutating registry operations (signup, unregister)
require a valid resolved session, but the listing operation does not:
for every state and cookie it returns the full activity mapping as a
snapshot — no filtering, no pagination — and leaves the state
unchanged. -/
theorem list_activities_amended (env : Env) (st : AppState) (cookie : Option String) :
    handle env st cookie Request.listActivities = (st, Response.okActivities st.activities) ∧
    (require_auth st.sessions cookie = none →
      ∀ n e, (handle env st cookie (Request.signup n e)).2 =
          Response.err 401 "Authentication required" ∧
        (handle env st cookie (Request.unregister n e)).2 =
          Response.err 401 "Authentication required") := by
  constructor
  · rfl
  · intro hra n e
    constructor <;>
      simp [handle, signup_for_activity, unregister_from_activity, hra]

/-- Witness for the amended C5: on the seeded state with no cookie, the
mutating signup route is rejected with 401. -/
theorem list_activities_amended_witness :
    (handle wEnv initialState none (Request.signup "Chess Club" "x@mergington.edu")).2 =
      Response.err 401 "Authentication required" :=
  ((list_activities_amended wEnv initialState none).2 (by decide)
    "Chess Club" "x@mergington.edu").1

/-- C6: a login whose username is unknown in the credential store, and a
login whose password fails the bcrypt check against the stored hash,
both fail with the same generic 401 "Invalid credentials" response and
leave the state — in particular the session registry — unchanged. -/
theorem login_invalid_credentials (env : Env) (st : AppState)
    (username password : String) :
    (env.teachers.find? (fun t => t.username == username) = none →
      login env st username password = (st, Response.err 401 "Invalid credentials")) ∧
    (∀ tr, env.teachers.find? (fun t => t.username == username) = some tr →
      env.checkpw password tr.password_hash = false →
      login env st username password = (st, Response.err 401 "Invalid credentials")) := by
  constructor
  · intro h
    simp [login, h]
  · intro tr ht hpw
    simp [login, ht, hpw]

/-- Witness for C6: both failure modes at concrete inputs — an unknown
username, and a wrong password for a stored teacher — yield the same 401
with the state unchanged. -/
theorem login_invalid_credentials_witness :
    login wEnv initialState "nobody" "goodpw" =
      (initialState, Response.err 401 "Invalid credentials") ∧
    login wEnv initialState "mrodriguez" "badpw" =
      (initialState, Response.err 401 "Invalid credentials") :=
  ⟨(login_invalid_credentials wEnv initialState "nobody" "goodpw").1 rfl,
   (login_invalid_credentials wEnv initialState "mrodriguez" "badpw").2
     { username := "mrodriguez", password_hash := "h1" } rfl rfl⟩

/-- C7: for an existing activity and an email not yet enrolled, signup
followed by unregister restores the state exactly, and a further
unregister of the same email fails with the "not signed up" error. -/
theorem signup_unregister_roundtrip (st : AppState) (cookie : Option String)
    (activity_name email u : String) (a : Activity)
    (hauth : require_auth st.sessions cookie = some u)
    (ha : lookupD st.activities activity_name = some a)
    (hmem : email ∉ a.participants) :
    (unregister_from_activity (signup_for_activity st cookie activity_name email).1
      cookie activity_name email).1 = st ∧
    (unregister_from_activity
      (unregister_from_activity (signup_for_activity st cookie activity_name email).1
        cookie activity_name email).1 cookie activity_name email).2 =
      Response.err 400 "Student is not signed up for this activity" := by
  have hs1 : (signup_for_activity st cookie activity_name email).1 =
      { st with activities := updateD st.activities activity_name { a with participants := a.participants ++ [email] } } := by
    simp [signup_for_activity, hauth, ha, hmem]
  have hla : lookupD (updateD st.activities activity_name { a with participants := a.participants ++ [email] }) activity_name = some { a with participants := a.participants ++ [email] } :=
    lookupD_updateD_self _ _ _ _ ha
  have hm1 : email ∈ ({ a with participants := a.participants ++ [email] } : Activity).participants := by
    simp
  have hrm := removeFirst_append_of_not_mem a.participants email hmem
  have hs2 : (unregister_from_activity (signup_for_activity st cookie activity_name email).1
      cookie activity_name email).1 = st := by
    rw [hs1]
    simp [unregister_from_activity, hauth, hla, hm1, hrm, updateD_updateD,
      updateD_self _ _ _ ha]
  refine ⟨hs2, ?_⟩
  rw [hs2]
  simp [unregister_from_activity, hauth, ha, hmem]

/-- Witness for C7: on the seeded authenticated state, signing a new
email up for Chess Club and unregistering it restores the exact state. -/
theorem signup_unregister_roundtrip_witness :
    (unregister_from_activity
      (signup_for_activity wState (some "tok") "Chess Club" "new@mergington.edu").1
      (some "tok") "Chess Club" "new@mergington.edu").1 = wState :=
  (signup_unregister_roundtrip wState (some "tok") "Chess Club" "new@mergington.edu"
    "mrodriguez" chessClub (by decide) (by decide) (by decide)).1

/-- C8: resolving a token (a total function — it cannot raise) yields
"unauthenticated" exactly when the token is absent: a never-issued token
resolves to none and the status endpoint reports unauthenticated; after
logout the token no longer resolves; logout always answers success,
removing the binding when present and acting as a no-op otherwise. -/
theorem session_resolution (st : AppState) (token : String)
    (hnd : (st.sessions.map Prod.fst).Nodup) :
    (lookupD st.sessions token = none →
      get_current_user st.sessions (some token) = none ∧
      (auth_status st (some token)).2 = Response.okStatus false none) ∧
    ((logout st (some token)).2 = Response.ok "Logged out successfully") ∧
    (get_current_user ((logout st (some token)).1).sessions (some token) = none) ∧
    (token ≠ "" → lookupD st.sessions token ≠ none →
      ((logout st (some token)).1).sessions = eraseD st.sessions token) ∧
    (lookupD st.sessions token = none → (logout st (some token)).1 = st) := by
  by_cases ht : token = ""
  · subst ht
    refine ⟨?_, ?_, ?_, ?_, ?_⟩
    · intro _
      constructor <;> simp [get_current_user, auth_status]
    · simp [logout]
    · simp [logout, get_current_user]
    · intro hne
      exact absurd rfl hne
    · intro _
      simp [logout]
  · by_cases hl : lookupD st.sessions token = none
    · refine ⟨?_, ?_, ?_, ?_, ?_⟩
      · intro _
        constructor <;> simp [get_current_user, auth_status, ht, hl]
      · simp [logout, ht, hl]
      · simp [logout, ht, hl, get_current_user]
      · intro _ h2
        exact absurd hl h2
      · intro _
        simp [logout, ht, hl]
    · have hsome : (lookupD st.sessions token).isSome :=
        Option.isSome_iff_ne_none.mpr hl
      refine ⟨?_, ?_, ?_, ?_, ?_⟩
      · intro h2
        exact absurd h2 hl
      · simp [logout, ht, hsome]
      · simp [logout, ht, hsome, get_current_user,
          lookupD_eraseD_self st.sessions token hnd]
      · intro _ _
        simp [logout, ht, hsome]
      · intro h2
        exact absurd h2 hl

/-- Witness for C8: destroying the one seeded session makes its token
stop resolving. -/
theorem session_resolution_witness :
    get_current_user ((logout wState (some "tok")).1).sessions (some "tok") = none :=
  (session_resolution wState "tok" (by decide)).2.2.1

/-- `RosterNodup` only looks at the activity registry. -/
theorem rosterNodup_of_activities_eq {st st' : AppState}
    (he : st'.activities = st.activities) (h : RosterNodup st) :
    RosterNodup st' := by
  intro p hp
  exact h p (he ▸ hp)

/-- Every single request preserves the no-duplicates invariant. -/
theorem handle_preserves_roster_nodup (env : Env) (st : AppState)
    (cookie : Option String) (req : Request) (h : RosterNodup st) :
    RosterNodup (handle env st cookie req).1 := by
  cases req with
  | login u p =>
    refine rosterNodup_of_activities_eq ?_ h
    show (login env st u p).1.activities = st.activities
    unfold login
    cases env.teachers.find? (fun t => t.username == u) with
    | none => rfl
    | some tr => by_cases hc : env.checkpw p tr.password_hash <;> simp [hc]
  | logout =>
    refine rosterNodup_of_activities_eq ?_ h
    show (logout st cookie).1.activities = st.activities
    unfold logout
    cases cookie with
    | none => rfl
    | some s =>
      by_cases hs : s = ""
      · simp [hs]
      · by_cases hl : (lookupD st.sessions s).isSome <;> simp [hs, hl]
  | authStatus =>
    refine rosterNodup_of_activities_eq ?_ h
    show (auth_status st cookie).1.activities = st.activities
    unfold auth_status
    cases get_current_user st.sessions cookie with
    | none => rfl
    | some u => by_cases hu : u = "" <;> simp [hu]
  | listActivities => exact h
  | signup n e =>
    show RosterNodup (signup_for_activity st cookie n e).1
    unfold signup_for_activity
    cases hra : require_auth st.sessions cookie with
    | none => exact h
    | some u =>
      simp only
      cases hl : lookupD st.activities n with
      | none => exact h
      | some a =>
        simp only
        by_cases hm : e ∈ a.participants
        · simp only [if_pos hm]
          exact h
        · simp only [if_neg hm]
          have hnod : a.participants.Nodup := h (n, a) (mem_of_lookupD hl)
          have hall : ∀ p ∈ st.activities, (Prod.snd p).participants.Nodup := h
          intro p hp
          refine forall_mem_updateD (P := fun b => b.participants.Nodup) hall ?_ p hp
          simp [List.nodup_append, hnod, hm]
  | unregister n e =>
    show RosterNodup (unregister_from_activity st cookie n e).1
    unfold unregister_from_activity
    cases hra : require_auth st.sessions cookie with
    | none => exact h
    | some u =>
      simp only
      cases hl : lookupD st.activities n with
      | none => exact h
      | some a =>
        simp only
        by_cases hm : e ∈ a.participants
        · simp only [if_pos hm]
          have hnod : a.participants.Nodup := h (n, a) (mem_of_lookupD hl)
          have hall : ∀ p ∈ st.activities, (Prod.snd p).participants.Nodup := h
          intro p hp
          refine forall_mem_updateD (P := fun b => b.participants.Nodup) hall ?_ p hp
          exact ((removeFirst_sublist a.participants e).nodup) hnod
        · simp only [if_neg hm]
          exact h

/-- Request sequences preserve the no-duplicates invariant. -/
theorem runOps_preserves_roster_nodup
    (ops : List (Env × Option String × Request)) :
    ∀ st : AppState, RosterNodup st → RosterNodup (runOps ops st) := by
  induction ops with
  | nil =>
    intro st h
    exact h
  | cons op rest ih =>
    intro st h
    obtain ⟨env, cookie, req⟩ := op
    exact ih _ (handle_preserves_roster_nodup env st cookie req h)

/-- The seeded registry satisfies the no-duplicates invariant. -/
theorem initial_roster_nodup : RosterNodup initialState := by
  show ∀ p ∈ initialState.activities, (Prod.snd p).participants.Nodup
  decide

/-- C9: in every state reachable from the seeded registry by any
sequence of requests, no activity's participants list contains the same
email twice. -/
theorem reachable_roster_nodup (ops : List (Env × Option String × Request)) :
    RosterNodup (runOps ops initialState) :=
  runOps_preserves_roster_nodup ops initialState initial_roster_nodup

/-- C10: a successful signup or unregister changes only the targeted
activity's participants list — the session registry, the key set and
order of the activity registry, every other activity's record, and the
targeted activity's description, schedule and max_participants are all
unchanged. -/
theorem roster_mutation_frame (st : AppState) (cookie : Option String)
    (activity_name email : String) :
    ((∃ m, (signup_for_activity st cookie activity_name email).2 = Response.ok m) →
      FramePreserved st (signup_for_activity st cookie activity_name email).1 activity_name) ∧
    ((∃ m, (unregister_from_activity st cookie activity_name email).2 = Response.ok m) →
      FramePreserved st (unregister_from_activity st cookie activity_name email).1 activity_name) := by
  constructor
  · intro hok
    obtain ⟨m, hm⟩ := hok
    unfold signup_for_activity at hm ⊢
    cases hra : require_auth st.sessions cookie with
    | none => simp [hra] at hm
    | some u =>
      simp only [hra] at hm ⊢
      cases hl : lookupD st.activities activity_name with
      | none => simp [hl] at hm
      | some a =>
        simp only [hl] at hm ⊢
        by_cases hmem : email ∈ a.participants
        · simp [hmem] at hm
        · simp only [if_neg hmem]
          refine ⟨rfl, map_fst_updateD _ _ _, fun k hk => lookupD_updateD_ne _ _ _ _ hk, ?_⟩
          intro b b' hb hb'
          have hba : b = a := by
            rw [hl] at hb
            exact (Option.some.inj hb).symm
          have hb'e : b' = { a with participants := a.participants ++ [email] } := by
            have := lookupD_updateD_self st.activities activity_name
              ({ a with participants := a.participants ++ [email] }) a hl
            rw [this] at hb'
            exact (Option.some.inj hb').symm
          subst hba
          subst hb'e
          exact ⟨rfl, rfl, rfl⟩
  · intro hok
    obtain ⟨m, hm⟩ := hok
    unfold unregister_from_activity at hm ⊢
    cases hra : require_auth st.sessions cookie with
    | none => simp [hra] at hm
    | some u =>
      simp only [hra] at hm ⊢
      cases hl : lookupD st.activities activity_name with
      | none => simp [hl] at hm
      | some a =>
        simp only [hl] at hm ⊢
        by_cases hmem : email ∈ a.participants
        · simp only [if_pos hmem]
          refine ⟨rfl, map_fst_updateD _ _ _, fun k hk => lookupD_updateD_ne _ _ _ _ hk, ?_⟩
          intro b b' hb hb'
          have hba : b = a := by
            rw [hl] at hb
            exact (Option.some.inj hb).symm
          have hb'e : b' = { a with participants := removeFirst a.participants email } := by
            have := lookupD_updateD_self st.activities activity_name
              ({ a with participants := removeFirst a.participants email }) a hl
            rw [this] at hb'
            exact (Option.some.inj hb').symm
          subst hba
          subst hb'e
          exact ⟨rfl, rfl, rfl⟩
        · simp [hmem] at hm

/-- Witness for C10: a successful concrete signup leaves the session
registry untouched. -/
theorem roster_mutation_frame_witness :
    ((signup_for_activity wState (some "tok") "Chess Club" "new@mergington.edu").1).sessions =
      wState.sessions := by
  have h := (roster_mutation_frame wState (some "tok") "Chess Club" "new@mergington.edu").1
    ⟨"Signed up new@mergington.edu for Chess Club", by decide⟩
  exact h.1

end Mergington
